import Mathlib

/-!
Shallow embedding of the biliTicker_gt HTTP gateway (src/main.rs).

The embedded core: the connection pool (`ClientManager`), the per-session
capability-instance registries for the click and slide kinds, instance
resolution (`get_click_instance`, `get_slide_instance`), and the dispatcher
bridge (`handle_blocking_call`), together with the response envelope
(`ApiResponse`) and the route table of `main`.

Modelling decisions, stated once:
- A `reqwest::Client` allocation (an `Arc<Client>`) is a `Client` record
  carrying the proxy configuration it was built with and a ghost allocation
  id `id`; two handles are the same underlying shared object iff they are
  equal as records (fresh ids make distinct allocations distinct).
- `HashMap` contents are association lists with insertion at the head;
  `lookupEntry` is `HashMap::get`.
- A `Mutex` is a `poisoned : Bool` flag on the guarded data.  Rust `lock()`
  returns `Err` on a poisoned mutex; `.expect(..)` on that result panics,
  which the embedding records as the outcome `panic` (no response is
  produced).  The registry code instead matches on the result and returns
  an error response.
- `reqwest::Proxy::all(url)` may reject a malformed url; this external
  judgement is an oracle `validProxy : String → Bool` threaded through the
  pool.  `Client::builder().build()` without a proxy is taken to succeed.
- `tokio::task::spawn_blocking` either completes with the closure result or
  fails at join; the boolean `bridgeOk` with message `bridgeMsg` models that
  external outcome.
- Registry structures carry a ghost counter `constructions` counting how
  many capability instances were ever constructed and stored.
-/

namespace BiliTicker

/-- `HashMap::get` on an association list: first binding for the key wins. -/
def lookupEntry {α : Type} : List (String × α) → String → Option α
  | [], _ => none
  | (k, v) :: rest, key => if k = key then some v else lookupEntry rest key

/-- A shared outbound connection handle (`Arc<reqwest::Client>`): the proxy
configuration it was built with, plus a ghost allocation identity. -/
structure Client where
  id : Nat
  proxy : Option String
deriving DecidableEq, Repr

/-- The connection pool (`ClientManager`): map from pool key to the shared
handle, the poison flag of its mutex, and a ghost fresh-id source (`nextId`
also counts how many handles were ever constructed). -/
structure ClientManager where
  clients : List (String × Client)
  poisoned : Bool
  nextId : Nat
deriving DecidableEq, Repr

/-- `ClientManager::new`. -/
def ClientManager.new : ClientManager := ⟨[], false, 0⟩

/-- The pool key of a proxy argument: `proxy.unwrap_or("default")`. -/
def ClientManager.key (proxy : Option String) : String := proxy.getD "default"

/-- Outcome of `ClientManager::get`: a handle plus the updated pool, an
error (`crate::error::Error`, pool unchanged), or a panic from
`.expect("ClientManager mutex poisoned")`. -/
inductive PoolOutcome where
  | ok (client : Client) (mgr : ClientManager)
  | err (message : String)
  | panic
deriving DecidableEq, Repr

/-- `ClientManager::get`: key is `proxy.unwrap_or("default")`; a poisoned
mutex panics; on hit the stored handle is returned unchanged; on miss a new
handle is constructed (rejecting an invalid proxy url) and stored. -/
def ClientManager.get (validProxy : String → Bool) (self : ClientManager)
    (proxy : Option String) : PoolOutcome :=
  if self.poisoned then .panic
  else
    let key := ClientManager.key proxy
    match lookupEntry self.clients key with
    | some client => .ok client self
    | none =>
      match proxy with
      | some proxy_url =>
        if validProxy proxy_url then
          let client : Client := ⟨self.nextId, some proxy_url⟩
          .ok client { self with clients := (key, client) :: self.clients,
                                 nextId := self.nextId + 1 }
        else .err "无效的代理 URL"
      | none =>
        let client : Client := ⟨self.nextId, none⟩
        .ok client { self with clients := (key, client) :: self.clients,
                               nextId := self.nextId + 1 }

/-- Modelled from the spec: `click.rs` is not part of the provided source.
A `Click` capability instance holds the active proxied handle, the direct
no-proxy handle, and opaque internal solving state; it is value-copyable. -/
structure Click where
  client : Client
  noproxy_client : Client
  solving_state : Nat
deriving DecidableEq, Repr

/-- Modelled from the spec: `Click::new(proxied, noproxy)` seeds the two
handle positions. -/
def Click.new (proxied noproxy : Client) : Click := ⟨proxied, noproxy, 0⟩

/-- Modelled from the spec: `update_client` replaces only the active proxied
handle; the direct handle and internal state are untouched. -/
def Click.update_client (self : Click) (new_client : Client) : Click :=
  { self with client := new_client }

/-- Modelled from the spec: `slide.rs` is not part of the provided source;
same shape as `Click`. -/
structure Slide where
  client : Client
  noproxy_client : Client
  solving_state : Nat
deriving DecidableEq, Repr

/-- Modelled from the spec: `Slide::new(proxied, noproxy)`. -/
def Slide.new (proxied noproxy : Client) : Slide := ⟨proxied, noproxy, 0⟩

/-- Modelled from the spec: `update_client` for the slide kind. -/
def Slide.update_client (self : Slide) (new_client : Client) : Slide :=
  { self with client := new_client }

/-- A session registry (`Arc<Mutex<HashMap<String, _>>>`): entries, the
poison flag of its mutex, and a ghost count of instance constructions. -/
structure InstanceRegistry (α : Type) where
  entries : List (String × α)
  poisoned : Bool
  constructions : Nat
deriving DecidableEq, Repr

/-- `AppState`: the pool and the two session registries. -/
structure AppState where
  client_manager : ClientManager
  click_instances : InstanceRegistry Click
  slide_instances : InstanceRegistry Slide
deriving DecidableEq, Repr

/-- `AppState::new`. -/
def AppState.new : AppState :=
  ⟨ClientManager.new, ⟨[], false, 0⟩, ⟨[], false, 0⟩⟩

/-- The response envelope `ApiResponse { success, data, error }`. -/
structure ApiResponse (T : Type) where
  success : Bool
  data : Option T
  error : Option String
deriving DecidableEq, Repr

/-- `ApiResponse::success(data)`. -/
def ApiResponse.mkSuccess {T : Type} (d : T) : ApiResponse T :=
  ⟨true, some d, none⟩

/-- `ApiResponse::error(message)`. -/
def ApiResponse.mkError {T : Type} (message : String) : ApiResponse T :=
  ⟨false, none, some message⟩

/-- Internal consistency of an envelope: success carries data and no error;
failure carries an error message and no data. -/
def ApiResponse.wellFormed {T : Type} (r : ApiResponse T) : Bool :=
  (r.success && r.data.isSome && r.error.isNone) ||
  (!r.success && r.data.isNone && r.error.isSome)

/-- An HTTP response: status code plus the serialized envelope body. -/
structure Response (T : Type) where
  status : Nat
  body : ApiResponse T
deriving DecidableEq, Repr

/-- Outcome of instance resolution (`Result<Click, Response>` in the code,
with the shared `AppState` threaded explicitly): the resolved instance and
the state, a pre-built error response (status, message) and the state, or a
panic (from the pool mutex `.expect`). -/
inductive Resolved (α : Type) where
  | ok (inst : α) (state : AppState)
  | err (status : Nat) (message : String) (state : AppState)
  | panic
deriving DecidableEq, Repr

/-- The `AppState` carried by a non-panicking resolution outcome. -/
def Resolved.state? {α : Type} : Resolved α → Option AppState
  | .ok _ st => some st
  | .err _ _ st => some st
  | .panic => none

/-- The instance carried by a successful resolution outcome. -/
def Resolved.inst? {α : Type} : Resolved α → Option α
  | .ok i _ => some i
  | _ => none

/-- `get_click_instance`: default the session id, resolve the proxied and
the no-proxy pool handles, fail with a 500 response on a poisoned registry
mutex, take (or create) the stored entry, clone it, and on an explicit
proxy rebind only the clone via `update_client`. -/
def get_click_instance (validProxy : String → Bool) (state : AppState)
    (session_id proxy : Option String) : Resolved Click :=
  let sid := session_id.getD "default"
  match ClientManager.get validProxy state.client_manager proxy with
  | .panic => .panic
  | .err msg => .err 500 msg state
  | .ok proxied_client mgr1 =>
    match ClientManager.get validProxy mgr1 none with
    | .panic => .panic
    | .err msg => .err 500 msg { state with client_manager := mgr1 }
    | .ok noproxy_client mgr2 =>
      let state1 := { state with client_manager := mgr2 }
      if state1.click_instances.poisoned then
        .err 500 "内部服务错误: Mutex a-poisoned" state1
      else
        match lookupEntry state1.click_instances.entries sid with
        | some stored =>
          if proxy.isSome then
            .ok (stored.update_client proxied_client) state1
          else
            .ok stored state1
        | none =>
          let inst := Click.new proxied_client noproxy_client
          let state2 := { state1 with click_instances :=
            { state1.click_instances with
                entries := (sid, inst) :: state1.click_instances.entries,
                constructions := state1.click_instances.constructions + 1 } }
          if proxy.isSome then
            .ok (inst.update_client proxied_client) state2
          else
            .ok inst state2

/-- `get_slide_instance`: identical to `get_click_instance` on the slide
registry. -/
def get_slide_instance (validProxy : String → Bool) (state : AppState)
    (session_id proxy : Option String) : Resolved Slide :=
  let sid := session_id.getD "default"
  match ClientManager.get validProxy state.client_manager proxy with
  | .panic => .panic
  | .err msg => .err 500 msg state
  | .ok proxied_client mgr1 =>
    match ClientManager.get validProxy mgr1 none with
    | .panic => .panic
    | .err msg => .err 500 msg { state with client_manager := mgr1 }
    | .ok noproxy_client mgr2 =>
      let state1 := { state with client_manager := mgr2 }
      if state1.slide_instances.poisoned then
        .err 500 "内部服务错误: Mutex poisoned" state1
      else
        match lookupEntry state1.slide_instances.entries sid with
        | some stored =>
          if proxy.isSome then
            .ok (stored.update_client proxied_client) state1
          else
            .ok stored state1
        | none =>
          let inst := Slide.new proxied_client noproxy_client
          let state2 := { state1 with slide_instances :=
            { state1.slide_instances with
                entries := (sid, inst) :: state1.slide_instances.entries,
                constructions := state1.slide_instances.constructions + 1 } }
          if proxy.isSome then
            .ok (inst.update_client proxied_client) state2
          else
            .ok inst state2

/-- The `handle_blocking_call!` macro: return the pre-built error response
on resolution failure; otherwise run the blocking closure on the resolved
copy via `spawn_blocking`; map `Ok(Ok(data))` to a 200 success envelope,
`Ok(Err(e))` to a 400 error envelope, and a join failure to a 500 error
envelope.  `none` means the handler panicked and produced no response. -/
def handle_blocking_call {α T : Type} (instance_result : Resolved α)
    (block : α → α × Except String T) (bridgeOk : Bool) (bridgeMsg : String) :
    Option (Response T × AppState) :=
  match instance_result with
  | .panic => none
  | .err status msg st => some (⟨status, ApiResponse.mkError msg⟩, st)
  | .ok inst st =>
    if bridgeOk then
      match (block inst).2 with
      | .ok data => some (⟨200, ApiResponse.mkSuccess data⟩, st)
      | .error e => some (⟨400, ApiResponse.mkError e⟩, st)
    else
      some (⟨500, ApiResponse.mkError bridgeMsg⟩, st)

/-- The route table assembled in `main`: (method, path) pairs. -/
def routes : List (String × String) :=
  [ ("GET", "/health"),
    ("POST", "/click/simple_match"),
    ("POST", "/click/simple_match_retry"),
    ("POST", "/click/register_test"),
    ("POST", "/click/get_c_s"),
    ("POST", "/click/get_type"),
    ("POST", "/click/verify"),
    ("POST", "/click/generate_w"),
    ("POST", "/click/test"),
    ("POST", "/slide/register_test"),
    ("POST", "/slide/get_c_s"),
    ("POST", "/slide/get_type"),
    ("POST", "/slide/verify"),
    ("POST", "/slide/generate_w"),
    ("POST", "/slide/test") ]

/-- Pool well-formedness (ghost): every stored handle has an allocation id
below the fresh-id source, and no two stored handles share an id.  Holds for
`ClientManager.new` and is preserved by `get`. -/
def ClientManager.WF (m : ClientManager) : Prop :=
  (∀ e ∈ m.clients, e.2.id < m.nextId) ∧
  (m.clients.map fun e => e.2.id).Nodup

/-- Iterated no-proxy click resolution: `iterClickNone v st sid n` is the
outcome of the `(n+1)`-th resolution of `sid` with no proxy, each resolution
threading the state of the previous one. -/
def iterClickNone (validProxy : String → Bool) (state : AppState)
    (session_id : Option String) : Nat → Resolved Click
  | 0 => get_click_instance validProxy state session_id none
  | n + 1 =>
    match iterClickNone validProxy state session_id n with
    | .ok _ st => get_click_instance validProxy st session_id none
    | e => e

/-- Iterated no-proxy slide resolution. -/
def iterSlideNone (validProxy : String → Bool) (state : AppState)
    (session_id : Option String) : Nat → Resolved Slide
  | 0 => get_slide_instance validProxy state session_id none
  | n + 1 =>
    match iterSlideNone validProxy state session_id n with
    | .ok _ st => get_slide_instance validProxy st session_id none
    | e => e

/-- Oracle accepting every proxy url (used to instantiate theorems on
concrete inputs). -/
def vTrue : String → Bool := fun _ => true

/-- A state whose pool mutex is poisoned. -/
def stPoolPoisoned : AppState :=
  { AppState.new with client_manager := { ClientManager.new with poisoned := true } }

/-- A state whose click registry mutex is poisoned. -/
def stClickPoisoned : AppState :=
  { AppState.new with click_instances := ⟨[], true, 0⟩ }

/-- A state whose slide registry mutex is poisoned. -/
def stSlidePoisoned : AppState :=
  { AppState.new with slide_instances := ⟨[], true, 0⟩ }

/-- A concrete operation body that succeeds without mutating its instance. -/
def blockOkClick : Click → Click × Except String String :=
  fun i => (i, Except.ok "done")

/-- A concrete operation body that mutates its instance and succeeds. -/
def blockMutClick : Click → Click × Except String String :=
  fun i => ({ i with solving_state := i.solving_state + 99 }, Except.ok "done")

/-- A concrete slide operation body. -/
def blockOkSlide : Slide → Slide × Except String String :=
  fun i => (i, Except.ok "done")

/-- A concrete pool holding exactly the no-proxy handle under "default". -/
def mDefault : ClientManager := ⟨[("default", ⟨0, none⟩)], false, 1⟩

/-! ## Association-list lemmas -/

theorem lookupEntry_cons {α : Type} (k key : String) (v : α) (l : List (String × α)) :
    lookupEntry ((k, v) :: l) key = if k = key then some v else lookupEntry l key := rfl

theorem lookupEntry_id_mem {α : Type} (f : α → Nat) :
    ∀ (l : List (String × α)) (k : String) (c : α),
      lookupEntry l k = some c → f c ∈ l.map fun e => f e.2 := by
  intro l
  induction l with
  | nil => intro k c h; simp [lookupEntry] at h
  | cons hd tl ih =>
    intro k c h
    rw [show hd = (hd.1, hd.2) from rfl, lookupEntry_cons] at h
    by_cases hk : hd.1 = k
    · rw [if_pos hk] at h
      simp at h
      simp [← h]
    · rw [if_neg hk] at h
      simpa using Or.inr (ih k c h)

theorem lookupEntry_distinct_keys {α : Type} (f : α → Nat) :
    ∀ (l : List (String × α)) (k1 k2 : String) (c1 c2 : α),
      (l.map fun e => f e.2).Nodup → k1 ≠ k2 →
      lookupEntry l k1 = some c1 → lookupEntry l k2 = some c2 →
      f c1 ≠ f c2 := by
  intro l
  induction l with
  | nil => intro k1 k2 c1 c2 _ _ h1; simp [lookupEntry] at h1
  | cons hd tl ih =>
    intro k1 k2 c1 c2 hnd hne h1 h2
    rw [show hd = (hd.1, hd.2) from rfl, lookupEntry_cons] at h1 h2
    rw [show hd = (hd.1, hd.2) from rfl] at hnd
    simp only [List.map_cons, List.nodup_cons] at hnd
    by_cases hk1 : hd.1 = k1
    · rw [if_pos hk1] at h1
      have hk2 : hd.1 ≠ k2 := fun hcontra => hne (hk1 ▸ hcontra ▸ rfl)
      rw [if_neg hk2] at h2
      have hmem := lookupEntry_id_mem f tl k2 c2 h2
      have hc1 : c1 = hd.2 := by simpa using h1.symm
      subst hc1
      intro heq
      exact hnd.1 (heq ▸ hmem)
    · rw [if_neg hk1] at h1
      by_cases hk2 : hd.1 = k2
      · rw [if_pos hk2] at h2
        have hmem := lookupEntry_id_mem f tl k1 c1 h1
        have hc2 : c2 = hd.2 := by simpa using h2.symm
        subst hc2
        intro heq
        exact hnd.1 (heq ▸ hmem)
      · rw [if_neg hk2] at h2
        exact ih k1 k2 c1 c2 hnd.2 hne h1 h2

/-! ## Pool lemmas -/

theorem ClientManager.get_ok_cases {v : String → Bool} {m : ClientManager}
    {P : Option String} {c : Client} {m1 : ClientManager}
    (h : ClientManager.get v m P = .ok c m1) :
    m.poisoned = false ∧
    ((m1 = m ∧ lookupEntry m.clients (ClientManager.key P) = some c) ∨
     (lookupEntry m.clients (ClientManager.key P) = none ∧
      c = ⟨m.nextId, P⟩ ∧
      m1 = { m with clients := (ClientManager.key P, c) :: m.clients,
                    nextId := m.nextId + 1 })) := by
  simp only [ClientManager.get] at h
  split at h
  · cases h
  case isFalse hp =>
    have hp' : m.poisoned = false := by simpa using hp
    refine ⟨hp', ?_⟩
    split at h
    case h_1 client hl =>
      cases h
      exact Or.inl ⟨rfl, hl⟩
    case h_2 hl =>
      cases P with
      | none =>
        simp only at h
        cases h
        exact Or.inr ⟨hl, rfl, rfl⟩
      | some p =>
        simp only at h
        split at h
        · cases h
          exact Or.inr ⟨hl, rfl, rfl⟩
        · cases h

theorem ClientManager.get_ok_flags {v : String → Bool} {m : ClientManager}
    {P : Option String} {c : Client} {m1 : ClientManager}
    (h : ClientManager.get v m P = .ok c m1) :
    m.poisoned = false ∧ m1.poisoned = false := by
  obtain ⟨hp, hcase⟩ := ClientManager.get_ok_cases h
  refine ⟨hp, ?_⟩
  rcases hcase with ⟨rfl, _⟩ | ⟨_, _, rfl⟩
  · exact hp
  · exact hp

theorem ClientManager.get_ok_lookup {v : String → Bool} {m : ClientManager}
    {P : Option String} {c : Client} {m1 : ClientManager}
    (h : ClientManager.get v m P = .ok c m1) :
    lookupEntry m1.clients (ClientManager.key P) = some c := by
  obtain ⟨_, hcase⟩ := ClientManager.get_ok_cases h
  rcases hcase with ⟨rfl, hl⟩ | ⟨_, _, rfl⟩
  · exact hl
  · simp [lookupEntry]

theorem ClientManager.get_hit {v : String → Bool} {m : ClientManager}
    {P : Option String} {c : Client}
    (hp : m.poisoned = false) (hl : lookupEntry m.clients (ClientManager.key P) = some c) :
    ClientManager.get v m P = .ok c m := by
  simp only [ClientManager.get, hp, Bool.false_eq_true, if_false, hl]

theorem ClientManager.get_idem {v : String → Bool} {m : ClientManager}
    {P : Option String} {c : Client} {m1 : ClientManager}
    (h : ClientManager.get v m P = .ok c m1) :
    ClientManager.get v m1 P = .ok c m1 :=
  ClientManager.get_hit (ClientManager.get_ok_flags h).2 (ClientManager.get_ok_lookup h)

theorem ClientManager.get_preserves_lookup {v : String → Bool} {m : ClientManager}
    {P : Option String} {c : Client} {m1 : ClientManager} {k0 : String} {c0 : Client}
    (hl0 : lookupEntry m.clients k0 = some c0)
    (h : ClientManager.get v m P = .ok c m1) :
    lookupEntry m1.clients k0 = some c0 := by
  obtain ⟨_, hcase⟩ := ClientManager.get_ok_cases h
  rcases hcase with ⟨rfl, _⟩ | ⟨hmiss, _, rfl⟩
  · exact hl0
  · have hne : ClientManager.key P ≠ k0 := by
      intro hcontra
      rw [hcontra] at hmiss
      rw [hmiss] at hl0
      cases hl0
    simpa [lookupEntry, hne] using hl0

theorem ClientManager.get_none_ok {v : String → Bool} {m : ClientManager}
    (hp : m.poisoned = false) :
    ∃ c m1, ClientManager.get v m none = .ok c m1 := by
  cases hl : lookupEntry m.clients (ClientManager.key none) with
  | some c => exact ⟨c, m, ClientManager.get_hit hp hl⟩
  | none =>
    refine ⟨⟨m.nextId, none⟩,
      { m with clients := (ClientManager.key none, ⟨m.nextId, none⟩) :: m.clients,
               nextId := m.nextId + 1 }, ?_⟩
    simp only [ClientManager.get, hp, Bool.false_eq_true, if_false, hl]

theorem ClientManager.lookup_id_lt {m : ClientManager} {k : String} {c : Client}
    (hwf : m.WF) (hl : lookupEntry m.clients k = some c) :
    c.id < m.nextId := by
  have hmem := lookupEntry_id_mem Client.id m.clients k c hl
  obtain ⟨e, he, heq⟩ := List.mem_map.1 hmem
  exact heq ▸ hwf.1 e he

theorem ClientManager.get_preserves_WF {v : String → Bool} {m : ClientManager}
    {P : Option String} {c : Client} {m1 : ClientManager}
    (hwf : m.WF) (h : ClientManager.get v m P = .ok c m1) : m1.WF := by
  obtain ⟨_, hcase⟩ := ClientManager.get_ok_cases h
  rcases hcase with ⟨rfl, _⟩ | ⟨_, hc, rfl⟩
  · exact hwf
  · constructor
    · intro e he
      rcases List.mem_cons.1 he with rfl | he2
      · simp [hc, Nat.lt_succ_self]
      · exact Nat.lt_succ_of_lt (hwf.1 e he2)
    · rw [List.map_cons, List.nodup_cons]
      refine ⟨?_, hwf.2⟩
      intro hmem
      obtain ⟨e, he, heq⟩ := List.mem_map.1 hmem
      have := hwf.1 e he
      rw [heq, hc] at this
      exact Nat.lt_irrefl _ this

/-! ## Click resolution lemmas -/

theorem get_click_instance_ok_anatomy {v : String → Bool} {st : AppState}
    {sid P : Option String} {inst : Click} {st1 : AppState}
    (h : get_click_instance v st sid P = .ok inst st1) :
    ∃ c1 m1 c2 m2,
      ClientManager.get v st.client_manager P = .ok c1 m1 ∧
      ClientManager.get v m1 none = .ok c2 m2 ∧
      st1.client_manager = m2 ∧
      st1.slide_instances = st.slide_instances ∧
      st.click_instances.poisoned = false ∧
      ((∃ e, lookupEntry st.click_instances.entries (sid.getD "default") = some e ∧
         st1.click_instances = st.click_instances ∧
         inst = (if P.isSome then e.update_client c1 else e)) ∨
       (lookupEntry st.click_instances.entries (sid.getD "default") = none ∧
         st1.click_instances = { st.click_instances with
           entries := (sid.getD "default", Click.new c1 c2) :: st.click_instances.entries,
           constructions := st.click_instances.constructions + 1 } ∧
         inst = (if P.isSome then (Click.new c1 c2).update_client c1
                 else Click.new c1 c2))) := by
  simp only [get_click_instance] at h
  cases h1 : ClientManager.get v st.client_manager P with
  | panic => rw [h1] at h; cases h
  | err msg => rw [h1] at h; cases h
  | ok c1 m1 =>
    rw [h1] at h
    dsimp only at h
    cases h2 : ClientManager.get v m1 none with
    | panic => rw [h2] at h; cases h
    | err msg => rw [h2] at h; cases h
    | ok c2 m2 =>
      rw [h2] at h
      dsimp only at h
      refine ⟨c1, m1, c2, m2, rfl, h2, ?_⟩
      by_cases hpre : st.click_instances.poisoned = true
      · simp [hpre] at h
      · have hpre' : st.click_instances.poisoned = false := by simpa using hpre
        simp only [hpre', Bool.false_eq_true, if_false] at h
        cases hl : lookupEntry st.click_instances.entries (sid.getD "default") with
        | some e =>
          rw [hl] at h
          dsimp only at h
          by_cases hs : P.isSome
          · rw [if_pos hs] at h
            cases h
            exact ⟨rfl, rfl, hpre', Or.inl ⟨_, rfl, rfl, by simp [hs]⟩⟩
          · rw [if_neg hs] at h
            cases h
            exact ⟨rfl, rfl, hpre', Or.inl ⟨_, rfl, rfl, by simp [hs]⟩⟩
        | none =>
          rw [hl] at h
          dsimp only at h
          by_cases hs : P.isSome
          · rw [if_pos hs] at h
            cases h
            exact ⟨rfl, rfl, hpre', Or.inr ⟨rfl, by simp [hpre'], by simp [hs]⟩⟩
          · rw [if_neg hs] at h
            cases h
            exact ⟨rfl, rfl, hpre', Or.inr ⟨rfl, by simp [hpre'], by simp [hs]⟩⟩

theorem get_click_pool_poisoned {v : String → Bool} {st : AppState}
    {sid P : Option String} (hp : st.client_manager.poisoned = true) :
    get_click_instance v st sid P = .panic := by
  simp [get_click_instance, ClientManager.get, hp]

theorem get_click_registry_poisoned {v : String → Bool} {st : AppState}
    {sid P : Option String} {c1 : Client} {m1 : ClientManager} {c2 : Client}
    {m2 : ClientManager}
    (h1 : ClientManager.get v st.client_manager P = .ok c1 m1)
    (h2 : ClientManager.get v m1 none = .ok c2 m2)
    (hreg : st.click_instances.poisoned = true) :
    get_click_instance v st sid P =
      .err 500 "内部服务错误: Mutex a-poisoned" { st with client_manager := m2 } := by
  simp only [get_click_instance, h1, h2]
  simp [hreg]

theorem get_click_err_500 {v : String → Bool} {st : AppState}
    {sid P : Option String} {s : Nat} {msg : String} {st1 : AppState}
    (h : get_click_instance v st sid P = .err s msg st1) : s = 500 := by
  simp only [get_click_instance] at h
  cases h1 : ClientManager.get v st.client_manager P with
  | panic => rw [h1] at h; cases h
  | err m => rw [h1] at h; dsimp only at h; cases h; rfl
  | ok c1 m1 =>
    rw [h1] at h
    dsimp only at h
    cases h2 : ClientManager.get v m1 none with
    | panic => rw [h2] at h; cases h
    | err m => rw [h2] at h; dsimp only at h; cases h; rfl
    | ok c2 m2 =>
      rw [h2] at h
      dsimp only at h
      by_cases hpre : st.click_instances.poisoned = true
      · simp only [hpre, if_true] at h
        cases h; rfl
      · have hpre' : st.click_instances.poisoned = false := by simpa using hpre
        simp only [hpre', Bool.false_eq_true, if_false] at h
        cases hl : lookupEntry st.click_instances.entries (sid.getD "default") with
        | some e =>
          rw [hl] at h; dsimp only at h
          by_cases hs : P.isSome
          · rw [if_pos hs] at h; cases h
          · rw [if_neg hs] at h; cases h
        | none =>
          rw [hl] at h; dsimp only at h
          by_cases hs : P.isSome
          · rw [if_pos hs] at h; cases h
          · rw [if_neg hs] at h; cases h

theorem get_click_hit {v : String → Bool} {st : AppState}
    {sid P : Option String} {inst : Click} {st1 : AppState} {e : Click}
    (hl : lookupEntry st.click_instances.entries (sid.getD "default") = some e)
    (h : get_click_instance v st sid P = .ok inst st1) :
    st1.click_instances = st.click_instances ∧
    st1.client_manager.poisoned = false ∧
    (P = none → inst = e) := by
  obtain ⟨c1, m1, c2, m2, h1, h2, hcm, hsl, hpre, hcase⟩ :=
    get_click_instance_ok_anatomy h
  rcases hcase with ⟨e2, hl2, hreg, hinst⟩ | ⟨hl2, _, _⟩
  · rw [hl] at hl2
    injection hl2 with he
    subst he
    refine ⟨hreg, ?_, ?_⟩
    · rw [hcm]; exact (ClientManager.get_ok_flags h2).2
    · intro hP; subst hP; simpa using hinst
  · rw [hl] at hl2; cases hl2

theorem get_click_none_lookup {v : String → Bool} {st : AppState}
    {sid : Option String} {inst : Click} {st1 : AppState}
    (h : get_click_instance v st sid none = .ok inst st1) :
    lookupEntry st1.click_instances.entries (sid.getD "default") = some inst := by
  obtain ⟨c1, m1, c2, m2, h1, h2, hcm, hsl, hpre, hcase⟩ :=
    get_click_instance_ok_anatomy h
  rcases hcase with ⟨e, hl, hreg, hinst⟩ | ⟨hl, hreg, hinst⟩
  · simp only [Option.isSome_none, Bool.false_eq_true, if_false] at hinst
    subst hinst
    rw [hreg]; exact hl
  · simp only [Option.isSome_none, Bool.false_eq_true, if_false] at hinst
    subst hinst
    rw [hreg]; simp [lookupEntry]

theorem get_click_none_miss {v : String → Bool} {st : AppState}
    {sid : Option String} {inst : Click} {st1 : AppState}
    (hl : lookupEntry st.click_instances.entries (sid.getD "default") = none)
    (h : get_click_instance v st sid none = .ok inst st1) :
    inst.client = inst.noproxy_client ∧
    st1.click_instances.entries =
      (sid.getD "default", inst) :: st.click_instances.entries ∧
    st1.click_instances.constructions = st.click_instances.constructions + 1 ∧
    st1.click_instances.poisoned = false ∧
    st1.client_manager.poisoned = false := by
  obtain ⟨c1, m1, c2, m2, h1, h2, hcm, hsl, hpre, hcase⟩ :=
    get_click_instance_ok_anatomy h
  rcases hcase with ⟨e, hl2, _, _⟩ | ⟨hl2, hreg, hinst⟩
  · rw [hl] at hl2; cases hl2
  · simp only [Option.isSome_none, Bool.false_eq_true, if_false] at hinst
    have hc : c2 = c1 := by
      have h2' := ClientManager.get_idem h1
      rw [h2'] at h2
      injection h2 with hc hm
      exact hc.symm
    subst hinst
    subst hc
    refine ⟨rfl, ?_, ?_, ?_, ?_⟩
    · rw [hreg]
    · rw [hreg]
    · rw [hreg]; exact hpre
    · rw [hcm]; exact (ClientManager.get_ok_flags h2).2

theorem get_click_none_total {v : String → Bool} {st : AppState}
    {sid : Option String}
    (hp : st.client_manager.poisoned = false)
    (hr : st.click_instances.poisoned = false) :
    ∃ inst st1, get_click_instance v st sid none = .ok inst st1 := by
  obtain ⟨c1, m1, h1⟩ := @ClientManager.get_none_ok v _ hp
  have h2 := ClientManager.get_idem h1
  simp only [get_click_instance, h1, h2]
  simp only [hr, Bool.false_eq_true, if_false]
  cases hl : lookupEntry st.click_instances.entries (sid.getD "default") with
  | some e => exact ⟨_, _, rfl⟩
  | none => exact ⟨_, _, rfl⟩

theorem iterClickNone_succ_shift {v : String → Bool} {st : AppState}
    {sid : Option String} {i : Click} {st1 : AppState}
    (h0 : iterClickNone v st sid 0 = .ok i st1) :
    ∀ n, iterClickNone v st sid (n + 1) = iterClickNone v st1 sid n := by
  intro n
  induction n with
  | zero =>
    show (match iterClickNone v st sid 0 with
          | .ok _ stp => get_click_instance v stp sid none
          | e => e) = _
    rw [h0]
    rfl
  | succ n ih =>
    show (match iterClickNone v st sid (n + 1) with
          | .ok _ stp => get_click_instance v stp sid none
          | e => e) = _
    rw [ih]
    rfl

theorem iterClickNone_stable {v : String → Bool} {st : AppState}
    {sid : Option String} {e : Click}
    (hl : lookupEntry st.click_instances.entries (sid.getD "default") = some e)
    (hp : st.client_manager.poisoned = false)
    (hr : st.click_instances.poisoned = false) :
    ∀ n, ∃ stn, iterClickNone v st sid n = .ok e stn ∧
      stn.click_instances = st.click_instances ∧
      stn.client_manager.poisoned = false := by
  intro n
  induction n with
  | zero =>
    obtain ⟨inst, st1, h⟩ := @get_click_none_total v _ sid hp hr
    obtain ⟨hframe, hflag, hinst⟩ := get_click_hit hl h
    refine ⟨st1, ?_, hframe, hflag⟩
    rw [show iterClickNone v st sid 0 = get_click_instance v st sid none from rfl,
        h, hinst rfl]
  | succ n ih =>
    obtain ⟨stn, hn, hframe, hflag⟩ := ih
    have hrn : stn.click_instances.poisoned = false := by rw [hframe]; exact hr
    obtain ⟨inst, st2, h⟩ := @get_click_none_total v _ sid hflag hrn
    have hln : lookupEntry stn.click_instances.entries (sid.getD "default") = some e := by
      rw [hframe]; exact hl
    obtain ⟨hframe2, hflag2, hinst⟩ := get_click_hit hln h
    refine ⟨st2, ?_, by rw [hframe2, hframe], hflag2⟩
    show (match iterClickNone v st sid n with
          | .ok _ stp => get_click_instance v stp sid none
          | e => e) = _
    rw [hn]
    dsimp only
    rw [h, hinst rfl]

/-! ## Slide resolution lemmas -/

theorem get_slide_instance_ok_anatomy {v : String → Bool} {st : AppState}
    {sid P : Option String} {inst : Slide} {st1 : AppState}
    (h : get_slide_instance v st sid P = .ok inst st1) :
    ∃ c1 m1 c2 m2,
      ClientManager.get v st.client_manager P = .ok c1 m1 ∧
      ClientManager.get v m1 none = .ok c2 m2 ∧
      st1.client_manager = m2 ∧
      st1.click_instances = st.click_instances ∧
      st.slide_instances.poisoned = false ∧
      ((∃ e, lookupEntry st.slide_instances.entries (sid.getD "default") = some e ∧
         st1.slide_instances = st.slide_instances ∧
         inst = (if P.isSome then e.update_client c1 else e)) ∨
       (lookupEntry st.slide_instances.entries (sid.getD "default") = none ∧
         st1.slide_instances = { st.slide_instances with
           entries := (sid.getD "default", Slide.new c1 c2) :: st.slide_instances.entries,
           constructions := st.slide_instances.constructions + 1 } ∧
         inst = (if P.isSome then (Slide.new c1 c2).update_client c1
                 else Slide.new c1 c2))) := by
  simp only [get_slide_instance] at h
  cases h1 : ClientManager.get v st.client_manager P with
  | panic => rw [h1] at h; cases h
  | err msg => rw [h1] at h; cases h
  | ok c1 m1 =>
    rw [h1] at h
    dsimp only at h
    cases h2 : ClientManager.get v m1 none with
    | panic => rw [h2] at h; cases h
    | err msg => rw [h2] at h; cases h
    | ok c2 m2 =>
      rw [h2] at h
      dsimp only at h
      refine ⟨c1, m1, c2, m2, rfl, h2, ?_⟩
      by_cases hpre : st.slide_instances.poisoned = true
      · simp [hpre] at h
      · have hpre' : st.slide_instances.poisoned = false := by simpa using hpre
        simp only [hpre', Bool.false_eq_true, if_false] at h
        cases hl : lookupEntry st.slide_instances.entries (sid.getD "default") with
        | some e =>
          rw [hl] at h
          dsimp only at h
          by_cases hs : P.isSome
          · rw [if_pos hs] at h
            cases h
            exact ⟨rfl, rfl, hpre', Or.inl ⟨_, rfl, rfl, by simp [hs]⟩⟩
          · rw [if_neg hs] at h
            cases h
            exact ⟨rfl, rfl, hpre', Or.inl ⟨_, rfl, rfl, by simp [hs]⟩⟩
        | none =>
          rw [hl] at h
          dsimp only at h
          by_cases hs : P.isSome
          · rw [if_pos hs] at h
            cases h
            exact ⟨rfl, rfl, hpre', Or.inr ⟨rfl, by simp [hpre'], by simp [hs]⟩⟩
          · rw [if_neg hs] at h
            cases h
            exact ⟨rfl, rfl, hpre', Or.inr ⟨rfl, by simp [hpre'], by simp [hs]⟩⟩

theorem get_slide_pool_poisoned {v : String → Bool} {st : AppState}
    {sid P : Option String} (hp : st.client_manager.poisoned = true) :
    get_slide_instance v st sid P = .panic := by
  simp [get_slide_instance, ClientManager.get, hp]

theorem get_slide_registry_poisoned {v : String → Bool} {st : AppState}
    {sid P : Option String} {c1 : Client} {m1 : ClientManager} {c2 : Client}
    {m2 : ClientManager}
    (h1 : ClientManager.get v st.client_manager P = .ok c1 m1)
    (h2 : ClientManager.get v m1 none = .ok c2 m2)
    (hreg : st.slide_instances.poisoned = true) :
    get_slide_instance v st sid P =
      .err 500 "内部服务错误: Mutex poisoned" { st with client_manager := m2 } := by
  simp only [get_slide_instance, h1, h2]
  simp [hreg]

theorem get_slide_err_500 {v : String → Bool} {st : AppState}
    {sid P : Option String} {s : Nat} {msg : String} {st1 : AppState}
    (h : get_slide_instance v st sid P = .err s msg st1) : s = 500 := by
  simp only [get_slide_instance] at h
  cases h1 : ClientManager.get v st.client_manager P with
  | panic => rw [h1] at h; cases h
  | err m => rw [h1] at h; dsimp only at h; cases h; rfl
  | ok c1 m1 =>
    rw [h1] at h
    dsimp only at h
    cases h2 : ClientManager.get v m1 none with
    | panic => rw [h2] at h; cases h
    | err m => rw [h2] at h; dsimp only at h; cases h; rfl
    | ok c2 m2 =>
      rw [h2] at h
      dsimp only at h
      by_cases hpre : st.slide_instances.poisoned = true
      · simp only [hpre, if_true] at h
        cases h; rfl
      · have hpre' : st.slide_instances.poisoned = false := by simpa using hpre
        simp only [hpre', Bool.false_eq_true, if_false] at h
        cases hl : lookupEntry st.slide_instances.entries (sid.getD "default") with
        | some e =>
          rw [hl] at h; dsimp only at h
          by_cases hs : P.isSome
          · rw [if_pos hs] at h; cases h
          · rw [if_neg hs] at h; cases h
        | none =>
          rw [hl] at h; dsimp only at h
          by_cases hs : P.isSome
          · rw [if_pos hs] at h; cases h
          · rw [if_neg hs] at h; cases h

theorem get_slide_hit {v : String → Bool} {st : AppState}
    {sid P : Option String} {inst : Slide} {st1 : AppState} {e : Slide}
    (hl : lookupEntry st.slide_instances.entries (sid.getD "default") = some e)
    (h : get_slide_instance v st sid P = .ok inst st1) :
    st1.slide_instances = st.slide_instances ∧
    st1.client_manager.poisoned = false ∧
    (P = none → inst = e) := by
  obtain ⟨c1, m1, c2, m2, h1, h2, hcm, hsl, hpre, hcase⟩ :=
    get_slide_instance_ok_anatomy h
  rcases hcase with ⟨e2, hl2, hreg, hinst⟩ | ⟨hl2, _, _⟩
  · rw [hl] at hl2
    injection hl2 with he
    subst he
    refine ⟨hreg, ?_, ?_⟩
    · rw [hcm]; exact (ClientManager.get_ok_flags h2).2
    · intro hP; subst hP; simpa using hinst
  · rw [hl] at hl2; cases hl2

theorem get_slide_none_lookup {v : String → Bool} {st : AppState}
    {sid : Option String} {inst : Slide} {st1 : AppState}
    (h : get_slide_instance v st sid none = .ok inst st1) :
    lookupEntry st1.slide_instances.entries (sid.getD "default") = some inst := by
  obtain ⟨c1, m1, c2, m2, h1, h2, hcm, hsl, hpre, hcase⟩ :=
    get_slide_instance_ok_anatomy h
  rcases hcase with ⟨e, hl, hreg, hinst⟩ | ⟨hl, hreg, hinst⟩
  · simp only [Option.isSome_none, Bool.false_eq_true, if_false] at hinst
    subst hinst
    rw [hreg]; exact hl
  · simp only [Option.isSome_none, Bool.false_eq_true, if_false] at hinst
    subst hinst
    rw [hreg]; simp [lookupEntry]

theorem get_slide_none_miss {v : String → Bool} {st : AppState}
    {sid : Option String} {inst : Slide} {st1 : AppState}
    (hl : lookupEntry st.slide_instances.entries (sid.getD "default") = none)
    (h : get_slide_instance v st sid none = .ok inst st1) :
    inst.client = inst.noproxy_client ∧
    st1.slide_instances.entries =
      (sid.getD "default", inst) :: st.slide_instances.entries ∧
    st1.slide_instances.constructions = st.slide_instances.constructions + 1 ∧
    st1.slide_instances.poisoned = false ∧
    st1.client_manager.poisoned = false := by
  obtain ⟨c1, m1, c2, m2, h1, h2, hcm, hsl, hpre, hcase⟩ :=
    get_slide_instance_ok_anatomy h
  rcases hcase with ⟨e, hl2, _, _⟩ | ⟨hl2, hreg, hinst⟩
  · rw [hl] at hl2; cases hl2
  · simp only [Option.isSome_none, Bool.false_eq_true, if_false] at hinst
    have hc : c2 = c1 := by
      have h2' := ClientManager.get_idem h1
      rw [h2'] at h2
      injection h2 with hc hm
      exact hc.symm
    subst hinst
    subst hc
    refine ⟨rfl, ?_, ?_, ?_, ?_⟩
    · rw [hreg]
    · rw [hreg]
    · rw [hreg]; exact hpre
    · rw [hcm]; exact (ClientManager.get_ok_flags h2).2

theorem get_slide_none_total {v : String → Bool} {st : AppState}
    {sid : Option String}
    (hp : st.client_manager.poisoned = false)
    (hr : st.slide_instances.poisoned = false) :
    ∃ inst st1, get_slide_instance v st sid none = .ok inst st1 := by
  obtain ⟨c1, m1, h1⟩ := @ClientManager.get_none_ok v _ hp
  have h2 := ClientManager.get_idem h1
  simp only [get_slide_instance, h1, h2]
  simp only [hr, Bool.false_eq_true, if_false]
  cases hl : lookupEntry st.slide_instances.entries (sid.getD "default") with
  | some e => exact ⟨_, _, rfl⟩
  | none => exact ⟨_, _, rfl⟩

theorem iterSlideNone_succ_shift {v : String → Bool} {st : AppState}
    {sid : Option String} {i : Slide} {st1 : AppState}
    (h0 : iterSlideNone v st sid 0 = .ok i st1) :
    ∀ n, iterSlideNone v st sid (n + 1) = iterSlideNone v st1 sid n := by
  intro n
  induction n with
  | zero =>
    show (match iterSlideNone v st sid 0 with
          | .ok _ stp => get_slide_instance v stp sid none
          | e => e) = _
    rw [h0]
    rfl
  | succ n ih =>
    show (match iterSlideNone v st sid (n + 1) with
          | .ok _ stp => get_slide_instance v stp sid none
          | e => e) = _
    rw [ih]
    rfl

theorem iterSlideNone_stable {v : String → Bool} {st : AppState}
    {sid : Option String} {e : Slide}
    (hl : lookupEntry st.slide_instances.entries (sid.getD "default") = some e)
    (hp : st.client_manager.poisoned = false)
    (hr : st.slide_instances.poisoned = false) :
    ∀ n, ∃ stn, iterSlideNone v st sid n = .ok e stn ∧
      stn.slide_instances = st.slide_instances ∧
      stn.client_manager.poisoned = false := by
  intro n
  induction n with
  | zero =>
    obtain ⟨inst, st1, h⟩ := @get_slide_none_total v _ sid hp hr
    obtain ⟨hframe, hflag, hinst⟩ := get_slide_hit hl h
    refine ⟨st1, ?_, hframe, hflag⟩
    rw [show iterSlideNone v st sid 0 = get_slide_instance v st sid none from rfl,
        h, hinst rfl]
  | succ n ih =>
    obtain ⟨stn, hn, hframe, hflag⟩ := ih
    have hrn : stn.slide_instances.poisoned = false := by rw [hframe]; exact hr
    obtain ⟨inst, st2, h⟩ := @get_slide_none_total v _ sid hflag hrn
    have hln : lookupEntry stn.slide_instances.entries (sid.getD "default") = some e := by
      rw [hframe]; exact hl
    obtain ⟨hframe2, hflag2, hinst⟩ := get_slide_hit hln h
    refine ⟨st2, ?_, by rw [hframe2, hframe], hflag2⟩
    show (match iterSlideNone v st sid n with
          | .ok _ stp => get_slide_instance v stp sid none
          | e => e) = _
    rw [hn]
    dsimp only
    rw [h, hinst rfl]


/-! ## Claims -/

/-- Claim C4 counterexample: the route table exposes no
`/slide/simple_match` endpoint, so the slide kind does not expose the
simple_match operation over the protocol. -/
theorem C4_counterexample : ("POST", "/slide/simple_match") ∉ routes := by
  decide

/-- Claim C4 (amended): `simple_match` and `simple_match_retry` are exposed
for the click kind only; the slide kind exposes neither. -/
theorem C4_route_surface :
    ("POST", "/click/simple_match") ∈ routes ∧
    ("POST", "/click/simple_match_retry") ∈ routes ∧
    ("POST", "/slide/simple_match") ∉ routes ∧
    ("POST", "/slide/simple_match_retry") ∉ routes := by
  decide

/-- Claim C3 counterexample: the empty proxy string is used literally as
the pool key, not mapped to "default": on a pool that already holds the
"default" handle, a get with proxy `some ""` constructs and stores a new
handle under the key "" instead of returning the stored default handle. -/
theorem C3_counterexample :
    ClientManager.key (some "") = "" ∧ ("" : String) ≠ "default" ∧
    ClientManager.get vTrue mDefault (some "") =
      .ok ⟨1, some ""⟩ ⟨[("", ⟨1, some ""⟩), ("default", ⟨0, none⟩)], false, 2⟩ := by
  decide

/-- Claim C3 (amended): an absent proxy maps to the pool key "default";
any present proxy string, including the empty string, is used literally as
the key; on a key hit the pool returns the stored handle unchanged. -/
theorem C3_key_mapping :
    ClientManager.key none = "default" ∧
    (∀ s : String, ClientManager.key (some s) = s) ∧
    (∀ (v : String → Bool) (m : ClientManager) (P : Option String) (c : Client),
      m.poisoned = false →
      lookupEntry m.clients (ClientManager.key P) = some c →
      ClientManager.get v m P = .ok c m) := by
  refine ⟨rfl, fun s => rfl, ?_⟩
  intro v m P c hp hl
  exact ClientManager.get_hit hp hl

/-- Witness for C3 at a concrete pool. -/
theorem C3_witness :
    ClientManager.key none = "default" ∧
    ClientManager.key (some "x") = "x" ∧
    mDefault.poisoned = false ∧
    lookupEntry mDefault.clients (ClientManager.key none) = some ⟨0, none⟩ ∧
    ClientManager.get vTrue mDefault none = .ok ⟨0, none⟩ mDefault :=
  ⟨C3_key_mapping.1, C3_key_mapping.2.1 "x", by decide, by decide,
   C3_key_mapping.2.2 vTrue mDefault none ⟨0, none⟩ (by decide) (by decide)⟩

/-- Claim C5 counterexample: the distinct proxy values `none` and
`some "default"` collide on the pool key "default", so a resolution with a
different proxy value can return the identical shared handle rather than a
distinct one. -/
theorem C5_counterexample :
    (some "default" ≠ (none : Option String)) ∧
    ClientManager.get vTrue ClientManager.new none = .ok ⟨0, none⟩ mDefault ∧
    ClientManager.get vTrue mDefault (some "default") = .ok ⟨0, none⟩ mDefault := by
  decide

/-- Claim C5 (amended): two successful resolutions with the same proxy
value return the identical shared handle with no second construction (the
pool is unchanged), and a resolution whose proxy value maps to a different
pool key returns a distinct handle; per distinct key at most one handle is
constructed and stored.  Distinctness holds at key level: proxy values that
collide on the same key (`none` and `some "default"`) share the handle. -/
theorem C5_pool_memoization :
    ∀ (v : String → Bool) (m : ClientManager) (P : Option String)
      (c : Client) (m1 : ClientManager),
      m.WF → ClientManager.get v m P = .ok c m1 →
      ClientManager.get v m1 P = .ok c m1 ∧ m1.WF ∧
      (∀ (P2 : Option String) (c2 : Client) (m2 : ClientManager),
        ClientManager.key P2 ≠ ClientManager.key P →
        ClientManager.get v m1 P2 = .ok c2 m2 → c2 ≠ c) := by
  intro v m P c m1 hwf h
  have hwf1 := ClientManager.get_preserves_WF hwf h
  refine ⟨ClientManager.get_idem h, hwf1, ?_⟩
  intro P2 c2 m2 hne h2
  have hl1 : lookupEntry m1.clients (ClientManager.key P) = some c :=
    ClientManager.get_ok_lookup h
  obtain ⟨_, hcase⟩ := ClientManager.get_ok_cases h2
  rcases hcase with ⟨_, hl2⟩ | ⟨_, hc2, _⟩
  · intro heq
    exact lookupEntry_distinct_keys Client.id m1.clients _ _ c2 c hwf1.2 hne hl2 hl1
      (by rw [heq])
  · intro heq
    have hlt := ClientManager.lookup_id_lt hwf1 hl1
    rw [← heq, hc2] at hlt
    exact Nat.lt_irrefl _ hlt

/-- Witness for C5 at a concrete pool. -/
theorem C5_witness :
    ClientManager.new.WF ∧
    ClientManager.get vTrue ClientManager.new none = .ok ⟨0, none⟩ mDefault ∧
    (ClientManager.get vTrue mDefault none = .ok ⟨0, none⟩ mDefault ∧
     mDefault.WF ∧
     (∀ (P2 : Option String) (c2 : Client) (m2 : ClientManager),
       ClientManager.key P2 ≠ ClientManager.key none →
       ClientManager.get vTrue mDefault P2 = .ok c2 m2 → c2 ≠ ⟨0, none⟩)) :=
  ⟨⟨by simp [ClientManager.new], by simp [ClientManager.new]⟩, by decide,
   C5_pool_memoization vTrue ClientManager.new none ⟨0, none⟩ mDefault
     ⟨by simp [ClientManager.new], by simp [ClientManager.new]⟩ (by decide)⟩

/-- Claim C2 counterexample: a request that observes a poisoned connection
pool mutex does not fail with an error envelope; the `.expect` on the pool
lock panics the request task, so resolution ends in `panic`, not in an
error response. -/
theorem C2_counterexample :
    get_click_instance vTrue stPoolPoisoned (some "s") none = .panic := by
  decide

/-- Claim C2 (amended): a request observing an unusable session-registry
lock fails with an internal-error envelope (server-error status 500)
scoped to that request, while a request observing an unusable pool lock
panics and produces no envelope; neither outcome touches other state. -/
theorem C2_poisoned_lock_handling :
    (∀ (v : String → Bool) (st : AppState) (sid P : Option String),
      st.client_manager.poisoned = true →
      get_click_instance v st sid P = .panic ∧
      get_slide_instance v st sid P = .panic) ∧
    (∀ (v : String → Bool) (st : AppState) (sid P : Option String)
       (c1 : Client) (m1 : ClientManager) (c2 : Client) (m2 : ClientManager)
       (T : Type) (block : Click → Click × Except String T)
       (bOk : Bool) (bMsg : String),
      ClientManager.get v st.client_manager P = .ok c1 m1 →
      ClientManager.get v m1 none = .ok c2 m2 →
      st.click_instances.poisoned = true →
      handle_blocking_call (get_click_instance v st sid P) block bOk bMsg =
        some (⟨500, ApiResponse.mkError "内部服务错误: Mutex a-poisoned"⟩,
              { st with client_manager := m2 })) ∧
    (∀ (v : String → Bool) (st : AppState) (sid P : Option String)
       (c1 : Client) (m1 : ClientManager) (c2 : Client) (m2 : ClientManager)
       (T : Type) (block : Slide → Slide × Except String T)
       (bOk : Bool) (bMsg : String),
      ClientManager.get v st.client_manager P = .ok c1 m1 →
      ClientManager.get v m1 none = .ok c2 m2 →
      st.slide_instances.poisoned = true →
      handle_blocking_call (get_slide_instance v st sid P) block bOk bMsg =
        some (⟨500, ApiResponse.mkError "内部服务错误: Mutex poisoned"⟩,
              { st with client_manager := m2 })) := by
  refine ⟨?_, ?_, ?_⟩
  · intro v st sid P hp
    exact ⟨get_click_pool_poisoned hp, get_slide_pool_poisoned hp⟩
  · intro v st sid P c1 m1 c2 m2 T block bOk bMsg h1 h2 hreg
    rw [get_click_registry_poisoned h1 h2 hreg]
    rfl
  · intro v st sid P c1 m1 c2 m2 T block bOk bMsg h1 h2 hreg
    rw [get_slide_registry_poisoned h1 h2 hreg]
    rfl

/-- Witness for C2 at concrete states. -/
theorem C2_witness :
    (get_click_instance vTrue stPoolPoisoned none none = .panic ∧
     get_slide_instance vTrue stPoolPoisoned none none = .panic) ∧
    handle_blocking_call (get_click_instance vTrue stClickPoisoned none none)
        blockOkClick true "b" =
      some (⟨500, ApiResponse.mkError "内部服务错误: Mutex a-poisoned"⟩,
            { stClickPoisoned with client_manager := mDefault }) ∧
    handle_blocking_call (get_slide_instance vTrue stSlidePoisoned none none)
        blockOkSlide true "b" =
      some (⟨500, ApiResponse.mkError "内部服务错误: Mutex poisoned"⟩,
            { stSlidePoisoned with client_manager := mDefault }) :=
  ⟨C2_poisoned_lock_handling.1 vTrue stPoolPoisoned none none (by decide),
   C2_poisoned_lock_handling.2.1 vTrue stClickPoisoned none none
     ⟨0, none⟩ mDefault ⟨0, none⟩ mDefault String blockOkClick true "b"
     (by decide) (by decide) (by decide),
   C2_poisoned_lock_handling.2.2 vTrue stSlidePoisoned none none
     ⟨0, none⟩ mDefault ⟨0, none⟩ mDefault String blockOkSlide true "b"
     (by decide) (by decide) (by decide)⟩

/-- Claim C7 counterexample: not every code path produces a response
envelope: dispatching an operation while the pool mutex is poisoned panics
inside resolution, and the dispatcher yields no envelope at all. -/
theorem C7_counterexample :
    handle_blocking_call (get_slide_instance vTrue stPoolPoisoned none none)
      blockOkSlide true "bridge" = none := by
  decide

/-- Claim C7 (amended): the dispatcher maps an instance-resolution failure
to its pre-built server-error envelope (resolution failures always carry
status 500), a capability-operation failure to a client-error 400 envelope
holding the message, a successful operation to a 200 success envelope, and
a failure of the blocking bridge to a server-error 500 envelope; every
non-panicking path produces exactly one envelope, but the poisoned-pool
panic path produces none. -/
theorem C7_dispatch_status_mapping :
    (∀ (v : String → Bool) (st : AppState) (sid P : Option String)
       (s : Nat) (msg : String) (st1 : AppState),
      get_click_instance v st sid P = .err s msg st1 → s = 500) ∧
    (∀ (v : String → Bool) (st : AppState) (sid P : Option String)
       (s : Nat) (msg : String) (st1 : AppState),
      get_slide_instance v st sid P = .err s msg st1 → s = 500) ∧
    (∀ (α T : Type) (s : Nat) (msg : String) (st1 : AppState)
       (block : α → α × Except String T) (bOk : Bool) (bMsg : String),
      handle_blocking_call (.err s msg st1) block bOk bMsg =
        some (⟨s, ApiResponse.mkError msg⟩, st1)) ∧
    (∀ (α T : Type) (inst : α) (st1 : AppState)
       (block : α → α × Except String T) (bMsg : String) (d : T),
      (block inst).2 = .ok d →
      handle_blocking_call (.ok inst st1) block true bMsg =
        some (⟨200, ApiResponse.mkSuccess d⟩, st1)) ∧
    (∀ (α T : Type) (inst : α) (st1 : AppState)
       (block : α → α × Except String T) (bMsg : String) (e : String),
      (block inst).2 = .error e →
      handle_blocking_call (.ok inst st1) block true bMsg =
        some (⟨400, ApiResponse.mkError e⟩, st1)) ∧
    (∀ (α T : Type) (inst : α) (st1 : AppState)
       (block : α → α × Except String T) (bMsg : String),
      handle_blocking_call (.ok inst st1) block false bMsg =
        some (⟨500, ApiResponse.mkError bMsg⟩, st1)) ∧
    (∀ (α T : Type) (r : Resolved α) (block : α → α × Except String T)
       (bOk : Bool) (bMsg : String),
      r ≠ .panic → (handle_blocking_call r block bOk bMsg).isSome = true) := by
  refine ⟨?_, ?_, ?_, ?_, ?_, ?_, ?_⟩
  · intro v st sid P s msg st1 h
    exact get_click_err_500 h
  · intro v st sid P s msg st1 h
    exact get_slide_err_500 h
  · intro α T s msg st1 block bOk bMsg
    rfl
  · intro α T inst st1 block bMsg d h
    simp [handle_blocking_call, h]
  · intro α T inst st1 block bMsg e h
    simp [handle_blocking_call, h]
  · intro α T inst st1 block bMsg
    rfl
  · intro α T r block bOk bMsg hr
    cases r with
    | panic => exact absurd rfl hr
    | err s msg st => rfl
    | ok inst st =>
      cases bOk with
      | false => rfl
      | true =>
        cases h : (block inst).2 <;> simp [handle_blocking_call, h]

/-- Witness for C7 at concrete inputs. -/
theorem C7_witness :
    ((blockOkClick (Click.new ⟨0, none⟩ ⟨0, none⟩)).2 = Except.ok "done") ∧
    handle_blocking_call (.ok (Click.new ⟨0, none⟩ ⟨0, none⟩) AppState.new)
        blockOkClick true "b" =
      some (⟨200, ApiResponse.mkSuccess "done"⟩, AppState.new) :=
  ⟨rfl,
   C7_dispatch_status_mapping.2.2.2.1 Click String
     (Click.new ⟨0, none⟩ ⟨0, none⟩) AppState.new blockOkClick "b" "done"
     rfl⟩

/-- Claim C8 (confirmed): the two envelope constructors are internally
consistent, and every envelope the dispatcher emits is well-formed: success
with data and no error, or failure with an error message and no data;
never both and never neither. -/
theorem C8_envelope_well_formed :
    (∀ (T : Type) (d : T), (ApiResponse.mkSuccess d).wellFormed = true) ∧
    (∀ (T : Type) (msg : String),
      (ApiResponse.mkError msg : ApiResponse T).wellFormed = true) ∧
    (∀ (α T : Type) (r : Resolved α) (block : α → α × Except String T)
       (bOk : Bool) (bMsg : String) (resp : Response T) (st1 : AppState),
      handle_blocking_call r block bOk bMsg = some (resp, st1) →
      resp.body.wellFormed = true) := by
  refine ⟨fun T d => rfl, fun T msg => rfl, ?_⟩
  intro α T r block bOk bMsg resp st1 h
  cases r with
  | panic => cases h
  | err s msg st =>
    simp only [handle_blocking_call] at h
    cases h
    rfl
  | ok inst st =>
    cases bOk with
    | false =>
      simp only [handle_blocking_call, Bool.false_eq_true, if_false] at h
      cases h
      rfl
    | true =>
      simp only [handle_blocking_call, if_true] at h
      cases hblk : (block inst).2 with
      | ok d => rw [hblk] at h; dsimp only at h; cases h; rfl
      | error e => rw [hblk] at h; dsimp only at h; cases h; rfl

/-- Witness for C8 at a concrete dispatch. -/
theorem C8_witness :
    handle_blocking_call (.ok (Slide.new ⟨0, none⟩ ⟨0, none⟩) AppState.new)
        blockOkSlide true "b" =
      some (⟨200, ApiResponse.mkSuccess "done"⟩, AppState.new) ∧
    (ApiResponse.mkSuccess "done").wellFormed = true :=
  ⟨by decide,
   C8_envelope_well_formed.2.2 Slide String
     (.ok (Slide.new ⟨0, none⟩ ⟨0, none⟩) AppState.new) blockOkSlide true "b"
     ⟨200, ApiResponse.mkSuccess "done"⟩ AppState.new (by decide)⟩

/-- Claim C1 counterexample: when the proxied resolution is the one that
creates the registry entry, the stored entry is seeded with the proxied
handle as its active handle, so the subsequent no-proxy resolution returns
an instance bound to the proxy handle (allocation 0, proxy "p"), not to
the no-proxy handle (allocation 1). -/
theorem C1_counterexample :
    ((get_click_instance vTrue AppState.new (some "s") (some "p")).state?.bind
        (fun st1 => (get_click_instance vTrue st1 (some "s") none).inst?)).map
        Click.client = some ⟨0, some "p"⟩ ∧
    ((get_click_instance vTrue AppState.new (some "s") (some "p")).state?.bind
        (fun st1 => (get_click_instance vTrue st1 (some "s") none).inst?)).map
        Click.noproxy_client = some ⟨1, none⟩ ∧
    (⟨0, some "p"⟩ : Client) ≠ ⟨1, none⟩ := by
  decide

/-- Claim C1 (amended): once a session has been resolved without a proxy
(so its stored entry carries the no-proxy binding), an intervening
resolution with an explicit proxy rebinds only the returned copy and never
rewrites the stored entry, and a subsequent no-proxy resolution returns
exactly the instance the earlier no-proxy resolution returned; when the
proxied resolution itself creates the entry, the entry is seeded with the
proxied handle. -/
theorem C1_proxied_resolution_transient :
    (∀ (v : String → Bool) (st : AppState) (S : Option String) (p : String)
       (i1 : Click) (st1 : AppState) (i2 : Click) (st2 : AppState)
       (i3 : Click) (st3 : AppState),
      get_click_instance v st S none = .ok i1 st1 →
      get_click_instance v st1 S (some p) = .ok i2 st2 →
      get_click_instance v st2 S none = .ok i3 st3 →
      st2.click_instances = st1.click_instances ∧ i3 = i1) ∧
    (∀ (v : String → Bool) (st : AppState) (S : Option String) (p : String)
       (i1 : Slide) (st1 : AppState) (i2 : Slide) (st2 : AppState)
       (i3 : Slide) (st3 : AppState),
      get_slide_instance v st S none = .ok i1 st1 →
      get_slide_instance v st1 S (some p) = .ok i2 st2 →
      get_slide_instance v st2 S none = .ok i3 st3 →
      st2.slide_instances = st1.slide_instances ∧ i3 = i1) := by
  constructor
  · intro v st S p i1 st1 i2 st2 i3 st3 h0 h1 h2
    have hl1 := get_click_none_lookup h0
    obtain ⟨hframe, _, _⟩ := get_click_hit hl1 h1
    have hl2 : lookupEntry st2.click_instances.entries (S.getD "default") = some i1 := by
      rw [hframe]; exact hl1
    obtain ⟨_, _, hinst⟩ := get_click_hit hl2 h2
    exact ⟨hframe, hinst rfl⟩
  · intro v st S p i1 st1 i2 st2 i3 st3 h0 h1 h2
    have hl1 := get_slide_none_lookup h0
    obtain ⟨hframe, _, _⟩ := get_slide_hit hl1 h1
    have hl2 : lookupEntry st2.slide_instances.entries (S.getD "default") = some i1 := by
      rw [hframe]; exact hl1
    obtain ⟨_, _, hinst⟩ := get_slide_hit hl2 h2
    exact ⟨hframe, hinst rfl⟩

/-- Witness for C1 on a concrete three-resolution run. -/
theorem C1_witness :
    (⟨⟨[("p", ⟨1, some "p"⟩), ("default", ⟨0, none⟩)], false, 2⟩,
      ⟨[("s", ⟨⟨0, none⟩, ⟨0, none⟩, 0⟩)], false, 1⟩,
      ⟨[], false, 0⟩⟩ : AppState).click_instances =
      (⟨mDefault, ⟨[("s", ⟨⟨0, none⟩, ⟨0, none⟩, 0⟩)], false, 1⟩,
        ⟨[], false, 0⟩⟩ : AppState).click_instances ∧
    (⟨⟨0, none⟩, ⟨0, none⟩, 0⟩ : Click) = ⟨⟨0, none⟩, ⟨0, none⟩, 0⟩ :=
  C1_proxied_resolution_transient.1 vTrue AppState.new (some "s") "p"
    ⟨⟨0, none⟩, ⟨0, none⟩, 0⟩
    ⟨mDefault, ⟨[("s", ⟨⟨0, none⟩, ⟨0, none⟩, 0⟩)], false, 1⟩, ⟨[], false, 0⟩⟩
    ⟨⟨1, some "p"⟩, ⟨0, none⟩, 0⟩
    ⟨⟨[("p", ⟨1, some "p"⟩), ("default", ⟨0, none⟩)], false, 2⟩,
     ⟨[("s", ⟨⟨0, none⟩, ⟨0, none⟩, 0⟩)], false, 1⟩, ⟨[], false, 0⟩⟩
    ⟨⟨0, none⟩, ⟨0, none⟩, 0⟩
    ⟨⟨[("p", ⟨1, some "p"⟩), ("default", ⟨0, none⟩)], false, 2⟩,
     ⟨[("s", ⟨⟨0, none⟩, ⟨0, none⟩, 0⟩)], false, 1⟩, ⟨[], false, 0⟩⟩
    (by decide) (by decide) (by decide)

/-- Claim C6 (confirmed): for a fresh session id, any number N of no-proxy
resolutions (iterated, N = n+1 here) constructs the stored instance exactly
once: after every prefix of resolutions the construction counter has
increased by exactly one, every resolution returns the same instance, and
that instance is the stored entry. -/
theorem C6_single_construction :
    (∀ (v : String → Bool) (st : AppState) (sid : Option String),
      st.client_manager.poisoned = false →
      st.click_instances.poisoned = false →
      lookupEntry st.click_instances.entries (sid.getD "default") = none →
      ∃ e, ∀ n, ∃ stn, iterClickNone v st sid n = .ok e stn ∧
        stn.click_instances.constructions = st.click_instances.constructions + 1 ∧
        lookupEntry stn.click_instances.entries (sid.getD "default") = some e) ∧
    (∀ (v : String → Bool) (st : AppState) (sid : Option String),
      st.client_manager.poisoned = false →
      st.slide_instances.poisoned = false →
      lookupEntry st.slide_instances.entries (sid.getD "default") = none →
      ∃ e, ∀ n, ∃ stn, iterSlideNone v st sid n = .ok e stn ∧
        stn.slide_instances.constructions = st.slide_instances.constructions + 1 ∧
        lookupEntry stn.slide_instances.entries (sid.getD "default") = some e) := by
  constructor
  · intro v st sid hp hr hl
    obtain ⟨e, st1, h⟩ := @get_click_none_total v _ sid hp hr
    obtain ⟨_, hentries, hconstr, hrpois, hpool⟩ := get_click_none_miss hl h
    have hl1 : lookupEntry st1.click_instances.entries (sid.getD "default") = some e := by
      rw [hentries]; simp [lookupEntry]
    refine ⟨e, ?_⟩
    intro n
    cases n with
    | zero => exact ⟨st1, h, hconstr, hl1⟩
    | succ n =>
      have hshift := iterClickNone_succ_shift
        (show iterClickNone v st sid 0 = .ok e st1 from h) n
      obtain ⟨stn, hn, hframe, hflag⟩ := iterClickNone_stable hl1 hpool hrpois n
      refine ⟨stn, ?_, ?_, ?_⟩
      · rw [hshift]; exact hn
      · rw [hframe]; exact hconstr
      · rw [hframe]; exact hl1
  · intro v st sid hp hr hl
    obtain ⟨e, st1, h⟩ := @get_slide_none_total v _ sid hp hr
    obtain ⟨_, hentries, hconstr, hrpois, hpool⟩ := get_slide_none_miss hl h
    have hl1 : lookupEntry st1.slide_instances.entries (sid.getD "default") = some e := by
      rw [hentries]; simp [lookupEntry]
    refine ⟨e, ?_⟩
    intro n
    cases n with
    | zero => exact ⟨st1, h, hconstr, hl1⟩
    | succ n =>
      have hshift := iterSlideNone_succ_shift
        (show iterSlideNone v st sid 0 = .ok e st1 from h) n
      obtain ⟨stn, hn, hframe, hflag⟩ := iterSlideNone_stable hl1 hpool hrpois n
      refine ⟨stn, ?_, ?_, ?_⟩
      · rw [hshift]; exact hn
      · rw [hframe]; exact hconstr
      · rw [hframe]; exact hl1

/-- Witness for C6 from the fresh initial state. -/
theorem C6_witness :
    (∃ e, ∀ n, ∃ stn, iterClickNone vTrue AppState.new none n = .ok e stn ∧
       stn.click_instances.constructions =
         AppState.new.click_instances.constructions + 1 ∧
       lookupEntry stn.click_instances.entries
         ((none : Option String).getD "default") = some e) ∧
    (∃ e, ∀ n, ∃ stn, iterSlideNone vTrue AppState.new none n = .ok e stn ∧
       stn.slide_instances.constructions =
         AppState.new.slide_instances.constructions + 1 ∧
       lookupEntry stn.slide_instances.entries
         ((none : Option String).getD "default") = some e) :=
  ⟨C6_single_construction.1 vTrue AppState.new none (by decide) (by decide) (by decide),
   C6_single_construction.2 vTrue AppState.new none (by decide) (by decide) (by decide)⟩

/-- Claim C9 (confirmed): with no proxy both pool resolutions go through
the key "default" and return the identical shared handle, and an instance
created by a no-proxy resolution is seeded with that same handle in both
positions. -/
theorem C9_noproxy_same_handle :
    (∀ (v : String → Bool) (m : ClientManager) (c : Client) (m1 : ClientManager),
      ClientManager.get v m none = .ok c m1 →
      ClientManager.get v m1 none = .ok c m1) ∧
    (∀ (v : String → Bool) (st : AppState) (sid : Option String)
       (inst : Click) (st1 : AppState),
      lookupEntry st.click_instances.entries (sid.getD "default") = none →
      get_click_instance v st sid none = .ok inst st1 →
      inst.client = inst.noproxy_client) ∧
    (∀ (v : String → Bool) (st : AppState) (sid : Option String)
       (inst : Slide) (st1 : AppState),
      lookupEntry st.slide_instances.entries (sid.getD "default") = none →
      get_slide_instance v st sid none = .ok inst st1 →
      inst.client = inst.noproxy_client) := by
  refine ⟨?_, ?_, ?_⟩
  · intro v m c m1 h
    exact ClientManager.get_idem h
  · intro v st sid inst st1 hl h
    exact (get_click_none_miss hl h).1
  · intro v st sid inst st1 hl h
    exact (get_slide_none_miss hl h).1

/-- Witness for C9 on the fresh state. -/
theorem C9_witness :
    ClientManager.get vTrue mDefault none = .ok ⟨0, none⟩ mDefault ∧
    (⟨⟨0, none⟩, ⟨0, none⟩, 0⟩ : Click).client =
      (⟨⟨0, none⟩, ⟨0, none⟩, 0⟩ : Click).noproxy_client ∧
    (⟨⟨0, none⟩, ⟨0, none⟩, 0⟩ : Slide).client =
      (⟨⟨0, none⟩, ⟨0, none⟩, 0⟩ : Slide).noproxy_client :=
  ⟨C9_noproxy_same_handle.1 vTrue ClientManager.new ⟨0, none⟩ mDefault (by decide),
   C9_noproxy_same_handle.2.1 vTrue AppState.new none ⟨⟨0, none⟩, ⟨0, none⟩, 0⟩
     ⟨mDefault, ⟨[("default", ⟨⟨0, none⟩, ⟨0, none⟩, 0⟩)], false, 1⟩, ⟨[], false, 0⟩⟩
     (by decide) (by decide),
   C9_noproxy_same_handle.2.2 vTrue AppState.new none ⟨⟨0, none⟩, ⟨0, none⟩, 0⟩
     ⟨mDefault, ⟨[], false, 0⟩, ⟨[("default", ⟨⟨0, none⟩, ⟨0, none⟩, 0⟩)], false, 1⟩⟩
     (by decide) (by decide)⟩

theorem handle_blocking_call_state {α T : Type} (r : Resolved α)
    (block : α → α × Except String T) (bOk : Bool) (bMsg : String) :
    (handle_blocking_call r block bOk bMsg).map Prod.snd = r.state? := by
  cases r with
  | panic => rfl
  | err s msg st => rfl
  | ok inst st =>
    cases bOk with
    | false => rfl
    | true =>
      cases hblk : (block inst).2 <;>
        simp [handle_blocking_call, Resolved.state?, hblk]

/-- Claim C10 (confirmed): the operation body runs on a value copy of the
stored entry — the final state of a dispatch is exactly the state produced
by resolution, independent of the operation body, so no mutation performed
by the body is observable in the registry afterwards; for a no-proxy
resolution the handed copy equals the stored entry. -/
theorem C10_copy_semantics :
    (∀ (T : Type) (v : String → Bool) (st : AppState) (sid P : Option String)
       (block : Click → Click × Except String T) (bOk : Bool) (bMsg : String),
      (handle_blocking_call (get_click_instance v st sid P) block bOk bMsg).map
        Prod.snd = (get_click_instance v st sid P).state?) ∧
    (∀ (T : Type) (v : String → Bool) (st : AppState) (sid P : Option String)
       (block : Slide → Slide × Except String T) (bOk : Bool) (bMsg : String),
      (handle_blocking_call (get_slide_instance v st sid P) block bOk bMsg).map
        Prod.snd = (get_slide_instance v st sid P).state?) ∧
    (∀ (v : String → Bool) (st : AppState) (sid : Option String)
       (inst : Click) (st1 : AppState),
      get_click_instance v st sid none = .ok inst st1 →
      lookupEntry st1.click_instances.entries (sid.getD "default") = some inst) ∧
    (∀ (v : String → Bool) (st : AppState) (sid : Option String)
       (inst : Slide) (st1 : AppState),
      get_slide_instance v st sid none = .ok inst st1 →
      lookupEntry st1.slide_instances.entries (sid.getD "default") = some inst) := by
  refine ⟨?_, ?_, ?_, ?_⟩
  · intro T v st sid P block bOk bMsg
    exact handle_blocking_call_state _ block bOk bMsg
  · intro T v st sid P block bOk bMsg
    exact handle_blocking_call_state _ block bOk bMsg
  · intro v st sid inst st1 h
    exact get_click_none_lookup h
  · intro v st sid inst st1 h
    exact get_slide_none_lookup h

/-- Witness for C10 on a concrete mutating operation body. -/
theorem C10_witness :
    (handle_blocking_call (get_click_instance vTrue AppState.new none none)
        blockMutClick true "b").map Prod.snd =
      (get_click_instance vTrue AppState.new none none).state? ∧
    lookupEntry
      (⟨mDefault, ⟨[("default", ⟨⟨0, none⟩, ⟨0, none⟩, 0⟩)], false, 1⟩,
        ⟨[], false, 0⟩⟩ : AppState).click_instances.entries
      ((none : Option String).getD "default") = some ⟨⟨0, none⟩, ⟨0, none⟩, 0⟩ :=
  ⟨C10_copy_semantics.1 String vTrue AppState.new none none blockMutClick true "b",
   C10_copy_semantics.2.2.1 vTrue AppState.new none ⟨⟨0, none⟩, ⟨0, none⟩, 0⟩
     ⟨mDefault, ⟨[("default", ⟨⟨0, none⟩, ⟨0, none⟩, 0⟩)], false, 1⟩, ⟨[], false, 0⟩⟩
     (by decide)⟩

end BiliTicker
